import Mathlib

/-!
Verification of the go-iproto request lifecycle core.

This file shallowly embeds the Go sources of the repository (request.go,
response.go, parallel_service.go, wait_group.go and the context file) as
executable Lean definitions and settles the frozen claims about them.

Modelling conventions:
- machine integers (uint32) are `Nat` with the arithmetic written out; all
  constant computations here stay below 2^32, so no wrap-around occurs;
- `[]byte` is `Option (List Nat)` (nil-able byte slice);
- interface values that are only tested for nil are `Bool`/`Option`;
- effects on a request's terminal `Responder` are externalized: operations
  return, next to the updated state, the list of `Response` values that were
  passed to `Responder.Respond` during the call (so "delivered exactly once"
  is "that list has length one");
- code guarded by a mutex is modelled as one atomic step (the sequential
  semantics of the critical section);
- a Go runtime panic (out-of-range index, nil dereference) is `Except GoPanic`.
-/

namespace Iproto

/-! ## Return codes (response.go)

The Go constant block uses `iota`, which increments per declaration line:
`RcShutdown = ^RetCode(0) - 1`, `RcProtocolError` repeats the expression with
`iota = 2`, and so on.  `^RetCode(0)` is `2 ^ 32 - 1`. -/

def RcOK : Nat := 0

def RcShutdown : Nat := (2 ^ 32 - 1) - 1

def RcProtocolError : Nat := (2 ^ 32 - 1) - 2

def RcFailed : Nat := (2 ^ 32 - 1) - 3

def RcFatalError : Nat := RcShutdown - 255 - 4

def RcSendTimeout : Nat := RcShutdown - 255 - 5

def RcRecvTimeout : Nat := RcShutdown - 255 - 6

def RcIOError : Nat := RcShutdown - 255 - 7

def RcRestartable : Nat := RcShutdown - 512

def RcInvalid : Nat := RcRestartable

/-- Modelled from the spec: the constants `RcCanceled` and `RcTimeout` are
declared in a source file of this repository that is not among the provided
files (request.go and the context file use them).  The spec (sections 3 and 7)
requires them to be distinct, nonzero, valid terminal return codes:
`RcCanceled` for caller-side cancellation, `RcTimeout` for expiry.  The exact
numeric values are not pinned down by the spec; any two distinct valid nonzero
values are faithful, and no claim below depends on more than that. -/
def RcTimeout : Nat := RcRestartable - 1

/-- Modelled from the spec: see `RcTimeout`. -/
def RcCanceled : Nat := RcRestartable - 2

/-! ## Request states (request.go) -/

def RsNew : Nat := 0

def RsPending : Nat := 1

def RsInFly : Nat := 2

def RsPrepared : Nat := 4

def RsPerformed : Nat := 8

def RsPerforming : Nat := RsPrepared ||| RsPerformed

/-! ## Response (response.go) -/

/-- Response carries the message tag, the caller-assigned id, the return code
and an opaque body. -/
structure Response where
  msg : Nat
  id : Nat
  code : Nat
  body : Option (List Nat)
  deriving DecidableEq

/-- Valid reports whether the code is below the validity floor
(`res.Code < RcInvalid`). -/
def Response.valid (res : Response) : Bool :=
  res.code < RcInvalid

/-- Restartable is `res.Code < RcFatalError` in the source. -/
def Response.restartable (res : Response) : Bool :=
  res.code < RcFatalError

/-! ## Request and the middleware chain (request.go, response.go)

A middleware node is modelled by its `Respond` callback.  The callback
observes the response and the request's current state word and returns the
possibly transformed response together with the possibly updated state word
(this is how `ResetToPending` / direct state writes from inside a callback
are expressed).  The chain itself is the `chain` field, head first, exactly
as the singly linked list headed at `Request.chain` in the source. -/

structure MNode where
  respond : Response → Nat → Response × Nat

/-- Request is the central entity: tag, id, state word, nil-able body, the
terminal responder (modelled by its presence bit, since its invocations are
returned as an explicit list), the middleware chain and the timer. -/
structure Request where
  msg : Nat
  id : Nat
  state : Nat
  body : Option (List Nat)
  hasResponder : Bool
  chain : List MNode
  timerOn : Bool

/-- The loop body of `chainResponse`: walk the chain head first; call each
node's `Respond`; if the state is no longer `RsPrepared` after the callback,
return at once (the node is NOT unchained); otherwise pop the node and
continue.  After the chain is exhausted the terminal `Responder.Respond` is
invoked (recorded as the singleton result list) and the request is finalized:
state `RsPerformed`, responder and body cleared, timer stopped. -/
def chainLoop : List MNode → Response → Request → Request × List Response
  | [], res, r =>
    ({ r with state := RsPerformed, hasResponder := false, body := none,
              timerOn := false }, [res])
  | n :: rest, res, r =>
    let p := n.respond res r.state
    if p.2 = RsPrepared then
      chainLoop rest p.1 { r with state := p.2, chain := rest }
    else
      ({ r with state := p.2 }, [])

/-- chainResponse from request.go: set the state to `RsPrepared`, then run
the chain walk. -/
def chainResponse (r : Request) (res : Response) : Request × List Response :=
  chainLoop r.chain res { r with state := RsPrepared }

/-- Response (the method) from request.go: under the request lock, enter
`chainResponse` only when the state is exactly `RsInFly`. -/
def requestResponse (r : Request) (res : Response) : Request × List Response :=
  if r.state = RsInFly then chainResponse r res else (r, [])

/-- Respond(code, body) from request.go: wrap code and body into a Response
with the request's own id and tag and hand it to `requestResponse`. -/
def requestRespond (r : Request) (code : Nat) (body : Option (List Nat)) :
    Request × List Response :=
  requestResponse r { msg := r.msg, id := r.id, code := code, body := body }

/-- Cancel from request.go: if no Performing bit is set, call
`Respond(RcTimeout, nil)`; the method returns `false` unconditionally. -/
def requestCancel (r : Request) : (Request × List Response) × Bool :=
  if r.state &&& RsPerforming = 0 then
    (requestRespond r RcTimeout none, false)
  else
    ((r, []), false)

/-- The loop of Expire from request.go, with explicit fuel.  The source reads
the state once into a local variable (`snap` here) and then loops while
`snap & RsPerforming == 0`, calling `Respond(RcTimeout, nil)` in the body;
the local snapshot is never reloaded.  `none` means the fuel ran out with the
loop guard still true, i.e. the loop runs forever. -/
def expireGo : Nat → Nat → Request → List Response →
    Option (Request × List Response)
  | 0, snap, r, acc =>
    if snap &&& RsPerforming = 0 then none else some (r, acc)
  | fuel + 1, snap, r, acc =>
    if snap &&& RsPerforming = 0 then
      let p := requestRespond r RcTimeout none
      expireGo fuel snap p.1 (acc ++ p.2)
    else
      some (r, acc)

/-- Expire from request.go: load the state once, then run the loop. -/
def requestExpire (fuel : Nat) (r : Request) :
    Option (Request × List Response) :=
  expireGo fuel r.state r []

/-- SetPending from request.go: CAS New to Pending. -/
def setPending (r : Request) : Request × Bool :=
  if r.state = RsNew then ({ r with state := RsPending }, true) else (r, false)

/-- SetInFly(nil) from request.go: CAS Pending to InFly. -/
def setInFlyNil (r : Request) : Request × Bool :=
  if r.state = RsPending then ({ r with state := RsInFly }, true) else (r, false)

/-- ChainMiddleware from request.go: under lock, push the node on the chain
head if the state is New or Pending; otherwise reject. -/
def requestChainMiddleware (r : Request) (m : MNode) : Request × Bool :=
  if r.state = RsNew ∨ r.state = RsPending then
    ({ r with chain := m :: r.chain }, true)
  else
    (r, false)

/-- Performed from request.go. -/
def requestPerformed (r : Request) : Bool :=
  r.state = RsPrepared || r.state = RsPerformed

/-! ## ParallelService (parallel_service.go)

The waiting queue is a circular doubly linked list with a sentinel.  It is
modelled by the list of chained nodes, head first, plus an address for each
node so that the source's pointer comparisons can be written down: the
sentinel has address `0` and real nodes have positive addresses.
`serv.list.next` is the address of the first chained node, or `0` (the
sentinel points at itself) when the queue is empty. -/

structure PMNode where
  addr : Nat
  performed : Bool
  req : Request

structure ParallelService where
  runned : Bool
  appendedNil : Bool
  appendedSignaled : Bool
  waiting : List PMNode

/-- The address read by `next := serv.list.next`. -/
def listNextAddr (serv : ParallelService) : Nat :=
  match serv.waiting with
  | [] => 0
  | n :: _ => n.addr

/-- The `performed` flag of the node at the head of the ring; the sentinel's
flag is `false` (relied upon by the source, as the spec notes). -/
def headPerformed (serv : ParallelService) : Bool :=
  match serv.waiting with
  | [] => false
  | n :: _ => n.performed

/-- runOne from parallel_service.go.  The source reads
`next := serv.list.next` and then guards with `next == serv.list.next`; the
left disjunct below is that comparison, a re-read of the very same head
pointer.  On the (dead) detach path the node is removed from the ring, its
middleware is unchained from the request (`UnchainMiddleware`), and
`SetInFly(nil)` CASes Pending to InFly; on success the request is handed to a
dispatch goroutine (returned as the `Option Request`) and the result is
`true`. -/
def runOne (serv : ParallelService) :
    ParallelService × Option Request × Bool :=
  if listNextAddr serv = listNextAddr serv ∨ headPerformed serv = true then
    (serv, none, false)
  else
    match serv.waiting with
    | [] => (serv, none, false)
    | n :: rest =>
      let r1 := { n.req with chain := n.req.chain.tail }
      let p := setInFlyNil r1
      if p.2 then
        ({ serv with waiting := rest }, some p.1, true)
      else
        ({ serv with waiting := rest }, none, false)

/-- SendWrapped from parallel_service.go.  Under the service lock: if the
`appended` channel has been nil'ed (shutdown) respond `RcShutdown` and
return; otherwise append a fresh `ParallelMiddleware` node at the tail of the
ring, chain it on the request (`ChainMiddleware`), and on success signal the
`appended` channel.  The node's `Respond` is a pass-through for the response
value (its queue bookkeeping acts on the service, mirrored by the ring
field). -/
def parallelPassthrough : MNode :=
  { respond := fun res st => (res, st) }

def sendWrapped (serv : ParallelService) (r : Request) :
    ParallelService × Request × List Response :=
  if serv.appendedNil then
    let p := requestRespond r RcShutdown none
    (serv, p.1, p.2)
  else
    let node : PMNode :=
      { addr := serv.waiting.length + 1, performed := false, req := r }
    let serv1 := { serv with waiting := serv.waiting ++ [node] }
    let pc := requestChainMiddleware r parallelPassthrough
    if pc.2 then
      ({ serv1 with appendedSignaled := true }, pc.1, [])
    else
      (serv1, pc.1, [])

/-- Send from parallel_service.go simply calls SendWrapped. -/
def psSend (serv : ParallelService) (r : Request) :
    ParallelService × Request × List Response :=
  sendWrapped serv r

/-! ## WaitGroup (wait_group.go) -/

def wgInFly : Nat := 0

def wgChan : Nat := 1

def wgWait : Nat := 2

def wgBufSize : Nat := 16

/-- A Go runtime fault. -/
inductive GoPanic where
  | indexOutOfRange : Nat → Nat → GoPanic
  | nilBlock : GoPanic
  deriving DecidableEq

/-- The `ch` channel: capacity, buffered contents, closed flag. -/
structure WChan where
  capacity : Nat
  buf : List Response
  closed : Bool

/-- WaitGroup: arrival counter `c`, number of created requests `reqn`, the
block list `requests` (Go `[]*[16]Request`, so each entry is a nil-able
pointer to a 16-slot block), the early-response buffer, the nil-able channel,
the consumption kind and the collective timer. -/
structure WaitGroup where
  c : Nat
  reqn : Nat
  requests : List (Option (List Request))
  responses : List Response
  ch : Option WChan
  kind : Nat
  timerOn : Bool

/-- The zero value of Go's `Request` (a fresh block slot). -/
def zeroRequest : Request :=
  { msg := 0, id := 0, state := RsNew, body := none, hasResponder := false,
    chain := [], timerOn := false }

/-- The zero value of Go's `WaitGroup`. -/
def wgNew : WaitGroup :=
  { c := 0, reqn := 0, requests := [], responses := [], ch := none,
    kind := wgInFly, timerOn := false }

/-- Write request `r` into block `bi`, slot `si` (no-op out of range or on a
nil block, which the callers below never hit on the write path). -/
def updateBlocks : List (Option (List Request)) → Nat → Nat → Request →
    List (Option (List Request))
  | [], _, _, _ => []
  | b :: bs, 0, si, r => (b.map (fun blk => blk.set si r)) :: bs
  | b :: bs, bi + 1, si, r => b :: updateBlocks bs bi si r

/-- Read block `bi`, slot `si`. -/
def getSlot (blocks : List (Option (List Request))) (bi si : Nat) :
    Option Request :=
  match blocks.get? bi with
  | none => none
  | some none => none
  | some (some blk) => blk.get? si

/-- Request (the WaitGroup method) from wait_group.go: when `reqn` is a
multiple of 16 append a fresh block; then write
`Request{Id: reqn, Msg: msg, Body: body, Responder: w}` into slot
`(reqn / 16, reqn % 16)` and increment `reqn`. -/
def wgRequest (w : WaitGroup) (msg : Nat) (body : Option (List Nat)) :
    WaitGroup :=
  let w1 :=
    if w.reqn % wgBufSize = 0 then
      { w with requests :=
          w.requests ++ [some (List.replicate wgBufSize zeroRequest)] }
    else w
  { w1 with
      requests := updateBlocks w1.requests (w1.reqn / wgBufSize)
        (w1.reqn % wgBufSize)
        { msg := msg, id := w1.reqn, state := RsNew, body := body,
          hasResponder := true, chain := [], timerOn := false },
      reqn := w1.reqn + 1 }

/-- close(w.ch) plus timer bookkeeping hosts call separately. -/
def wgCloseCh (w : WaitGroup) : WaitGroup :=
  { w with ch := w.ch.map (fun ch => { ch with closed := true }) }

/-- incLocked from wait_group.go: increment `c`; when it reaches `reqn`,
stop the timer and close the channel (`wgChan`) or signal the condition
(`wgWait`); the default kind does nothing. -/
def incLocked (w : WaitGroup) : WaitGroup :=
  let w1 := { w with c := w.c + 1 }
  if w1.c = w1.reqn then
    if w1.kind = wgChan then wgCloseCh { w1 with timerOn := false }
    else if w1.kind = wgWait then { w1 with timerOn := false }
    else w1
  else w1

/-- inc from wait_group.go does the same bookkeeping (it takes the lock
itself, which the sequential model absorbs). -/
def wgInc (w : WaitGroup) : WaitGroup :=
  incLocked w

/-- Respond (the WaitGroup method, the group acting as the requests'
terminal Responder): with a nil channel append to the early-response buffer
and `incLocked`; otherwise send on the channel and `inc`. -/
def wgRespond (w : WaitGroup) (r : Response) : WaitGroup :=
  match w.ch with
  | none => incLocked { w with responses := w.responses ++ [r] }
  | some ch => wgInc { w with ch := some { ch with buf := ch.buf ++ [r] } }

/-- The pre-drain loop of Each: for each buffered early response, execute
`w.requests[resp.Id] = nil` (the source indexes the BLOCK slice by the
request id — out of range when `resp.Id ≥ len(w.requests)`) and then send
the response on the channel. -/
def wgEachLoop : List Response → WaitGroup → Except GoPanic WaitGroup
  | [], w => .ok w
  | resp :: rest, w =>
    if resp.id < w.requests.length then
      wgEachLoop rest
        { w with requests := w.requests.set resp.id none,
                 ch := w.ch.map (fun ch => { ch with buf := ch.buf ++ [resp] }) }
    else
      .error (GoPanic.indexOutOfRange resp.id w.requests.length)

/-- Each from wait_group.go: pick the channel mode, allocate a channel of
capacity `reqn`, pre-drain the early responses, clear the buffer, and close
the channel when the arrival counter already equals `reqn`. -/
def wgEach (w : WaitGroup) : Except GoPanic WaitGroup :=
  let w1 := { w with kind := wgChan,
                     ch := some { capacity := w.reqn, buf := [], closed := false } }
  match wgEachLoop w1.responses w1 with
  | .error e => .error e
  | .ok w2 =>
    let w3 := { w2 with responses := [] }
    .ok (if w3.c = w3.reqn then wgCloseCh w3 else w3)

/-- Outcome of code that runs while this goroutine holds the group mutex
`w.m`: it can return normally, fault with a Go runtime panic, or block
forever (`blocked`) on a reentrant acquisition of the held, non-reentrant
`w.m` — in which case the goroutine never returns and the `blocked` outcome
abstracts away the partial state that would remain visible only to other
goroutines. -/
inductive LockedOutcome (α : Type) where
  | ret : α → LockedOutcome α
  | fault : GoPanic → LockedOutcome α
  | blocked : LockedOutcome α

/-- Respond (the WaitGroup method) as invoked SYNCHRONOUSLY from inside
WaitGroup.Cancel, which already holds `w.m`.  Go mutexes are not reentrant:
the `ch == nil` path re-acquires `w.m` and blocks this goroutine forever
(`none`); on the channel path, `inc()` re-acquires `w.m` exactly when the
incremented counter reaches `reqn` — also `none`.  A send on a full channel
blocks too, and in the sequential semantics no receiver can run while this
goroutine holds `w.m`, so it never resumes (`none`).  A send on a closed
channel would be a Go panic, but a closed channel implies `c = reqn` (only
`inc`/`incLocked`/`Each` close it, at `c = reqn`), and Cancel never reaches
its loop in that case, so that path is not representable here. -/
def wgRespondLocked (w : WaitGroup) (r : Response) : Option WaitGroup :=
  match w.ch with
  | none => none
  | some ch =>
    if ch.buf.length < ch.capacity then
      if w.c + 1 = w.reqn then none
      else
        some { w with ch := some { ch with buf := ch.buf ++ [r] },
                      c := w.c + 1 }
    else none

/-- Feed a cancellation's terminal deliveries, in order, through the
lock-holding `wgRespondLocked`; if any of them never returns, neither does
the caller. -/
def feedLocked : List Response → WaitGroup → Option WaitGroup
  | [], w => some w
  | r :: rest, w =>
    match wgRespondLocked w r with
    | none => none
    | some w1 => feedLocked rest w1

/-- One block of the Cancel loop, run while Cancel holds `w.m`: for each
slot whose state is not New, invoke the request's `Cancel`; its terminal
deliveries run synchronously into the group's Respond via `feedLocked`, and
if one of them blocks, so does the whole loop.  The `incLocked` branch for a
true return of `Cancel` is kept although the source's `Cancel` returns
false on every path.  Results: the rewritten block, the updated group, and
the ids on which `Cancel` was invoked. -/
def cancelBlock : List Request → WaitGroup →
    Option (List Request × WaitGroup × List Nat)
  | [], w => some ([], w, [])
  | req :: rest, w =>
    if req.state ≠ RsNew then
      match feedLocked (requestCancel req).1.2 w with
      | none => none
      | some w1 =>
        match cancelBlock rest
          (if (requestCancel req).2 then incLocked w1 else w1) with
        | none => none
        | some (blk, w', log) =>
          some ((requestCancel req).1.1 :: blk, w', req.id :: log)
    else
      match cancelBlock rest w with
      | none => none
      | some (blk, w', log) => some (req :: blk, w', log)

/-- The outer Cancel loop over blocks, still holding `w.m`: dereferencing a
nil block pointer (`&reqs[i]` with `reqs == nil`) is a runtime fault, and a
blocked delivery inside a block blocks the whole call. -/
def cancelBlocks : List (Option (List Request)) → WaitGroup →
    LockedOutcome (List (Option (List Request)) × WaitGroup × List Nat)
  | [], w => .ret ([], w, [])
  | none :: _, _ => .fault GoPanic.nilBlock
  | some blk :: rest, w =>
    match cancelBlock blk w with
    | none => .blocked
    | some (blk', w1, log1) =>
      match cancelBlocks rest w1 with
      | .ret (bs, w', log) => .ret (some blk' :: bs, w', log1 ++ log)
      | .fault e => .fault e
      | .blocked => .blocked

/-- Cancel (the WaitGroup method) from wait_group.go: return immediately
when `c` equals `reqn`; otherwise take `w.m` (held for the rest of the
call), stop the timer and run the loop — which may fault on a nil block or
block forever when a member's delivery re-enters the group's Respond. -/
def wgCancel (w : WaitGroup) : LockedOutcome (WaitGroup × List Nat) :=
  if w.c = w.reqn then .ret (w, [])
  else
    match cancelBlocks w.requests { w with timerOn := false } with
    | .ret (bs, w', log) => .ret ({ w' with requests := bs }, log)
    | .fault e => .fault e
    | .blocked => .blocked

/-! Scenario helpers (test-harness code, not source embedding): they drive
the embedded source operations the way a downstream service would. -/

/-- Scenario helper: the downstream service accepts request `i` of the group
(`SetPending` then `SetInFly(nil)`) and answers it with the given code and
body; the request's terminal deliveries reach the group via `wgRespond`. -/
def wgDeliver (w : WaitGroup) (i : Nat) (code : Nat)
    (body : Option (List Nat)) : WaitGroup :=
  match getSlot w.requests (i / wgBufSize) (i % wgBufSize) with
  | none => w
  | some req =>
    let req1 := (setPending req).1
    let req2 := (setInFlyNil req1).1
    let p := requestRespond req2 code body
    let w1 :=
      { w with
          requests := updateBlocks w.requests (i / wgBufSize) (i % wgBufSize) p.1 }
    p.2.foldl wgRespond w1

/-- Scenario helper: the downstream service accepts request `i`
(`SetPending` then `SetInFly(nil)`) but has not answered yet. -/
def wgMarkInFly (w : WaitGroup) (i : Nat) : WaitGroup :=
  match getSlot w.requests (i / wgBufSize) (i % wgBufSize) with
  | none => w
  | some req =>
    let req1 := (setPending req).1
    let req2 := (setInFlyNil req1).1
    { w with
        requests := updateBlocks w.requests (i / wgBufSize) (i % wgBufSize) req2 }

/-! ## Context (hierarchical cancellation source file) -/

/-- Context: the terminal code word (0 = alive), the flag recording that
`child.L` has been wired to the context's mutex (AddCanceler does this
unconditionally), the two inline canceller slots, the slot count, and the
nil-able overflow map (modelled by its key list).  Cancellers are identified
by numeric ids. -/
structure Context where
  retCode : Nat
  childLSet : Bool
  cancels : List (Option Nat)
  cancelsn : Int
  cancelsm : Option (List Nat)

/-- The inline-slot insertion loop of AddCanceler: put the candidate in the
first nil slot; report whether a slot was found. -/
def addCancelerSlots : List (Option Nat) → Nat → List (Option Nat) × Bool
  | [], _ => ([], false)
  | none :: rest, cn => (some cn :: rest, true)
  | some x :: rest, cn =>
    let p := addCancelerSlots rest cn
    (some x :: p.1, p.2)

/-- AddCanceler from the context source file: under the lock, wire
`child.L`, compute `ok = retCode != RcCanceled && retCode != RcTimeout`;
if ok, insert into the inline slots, or into the (lazily created) overflow
map when both slots are taken; after unlocking, if not ok, call
`cn.Cancel()` — returned as the invocation list. -/
def addCanceler (c : Context) (cn : Nat) : Context × List Nat :=
  if c.retCode ≠ RcCanceled ∧ c.retCode ≠ RcTimeout then
    let p := addCancelerSlots c.cancels cn
    if p.2 then
      ({ c with childLSet := true, cancels := p.1,
                cancelsn := c.cancelsn + 1 }, [])
    else
      ({ c with childLSet := true,
                cancelsm := some (c.cancelsm.getD [] ++ [cn]) }, [])
  else
    ({ c with childLSet := true }, [cn])

/-! ## Concrete instances used by witnesses and counterexamples -/

/-- A request on which `chainResponse` has completed: state `RsPerformed`. -/
def reqPerfW : Request :=
  { msg := 1, id := 2, state := RsPerformed, body := none,
    hasResponder := false, chain := [], timerOn := false }

def resW : Response :=
  { msg := 1, id := 2, code := RcOK, body := none }

/-- A freshly created request (state `RsNew`). -/
def reqNewC2 : Request :=
  { msg := 5, id := 0, state := RsNew, body := none, hasResponder := true,
    chain := [], timerOn := false }

/-- An in-flight request with an empty middleware chain. -/
def reqInFlyC4 : Request :=
  { msg := 7, id := 3, state := RsInFly, body := none, hasResponder := true,
    chain := [], timerOn := false }

/-- A pending request waiting in a ParallelService queue. -/
def reqPendingC3 : Request :=
  { msg := 9, id := 4, state := RsPending, body := none, hasResponder := true,
    chain := [parallelPassthrough], timerOn := false }

/-- A ParallelService whose queue holds one non-performed node with a
pending request: the configuration in which the claim expects `runOne` to
dispatch and return true. -/
def servPendC3 : ParallelService :=
  { runned := true, appendedNil := false, appendedSignaled := true,
    waiting := [{ addr := 1, performed := false, req := reqPendingC3 }] }

/-- A shut-down ParallelService (`appended` nil'ed) with an empty queue. -/
def servShutC10 : ParallelService :=
  { runned := false, appendedNil := true, appendedSignaled := false,
    waiting := [] }

def reqNewC10 : Request :=
  { msg := 11, id := 6, state := RsNew, body := none, hasResponder := true,
    chain := [], timerOn := false }

/-- A group of two requests where the response to request 1 arrived before a
consumption mode was chosen. -/
def wEarlyC7 : WaitGroup :=
  wgDeliver (wgRequest (wgRequest wgNew 7 none) 7 none) 1 RcOK none

/-- A group of one request that is in flight and unanswered: `c = 0`,
`reqn = 1`, no consumption mode chosen (`ch` nil). -/
def wMidC8 : WaitGroup :=
  wgMarkInFly (wgRequest wgNew 7 none) 0

/-- A context already terminated by Cancel. -/
def cxTermC9 : Context :=
  { retCode := RcCanceled, childLSet := false, cancels := [none, none],
    cancelsn := 0, cancelsm := none }

/-! ## Helper lemmas -/

/-- When the snapshot has a Performing bit, the Expire loop body never runs:
the call returns at once with no deliveries, for any fuel. -/
theorem expireGo_done (fuel snap : Nat) (r : Request) (acc : List Response)
    (h : ¬ snap &&& RsPerforming = 0) :
    expireGo fuel snap r acc = some (r, acc) := by
  cases fuel <;> · unfold expireGo; rw [if_neg h]

/-- When the snapshot has no Performing bit, the Expire loop guard — which
re-reads only the stale snapshot — never turns false: the loop consumes any
amount of fuel without returning. -/
theorem expireGo_stuck (fuel : Nat) : ∀ (snap : Nat) (r : Request)
    (acc : List Response), snap &&& RsPerforming = 0 →
    expireGo fuel snap r acc = none := by
  induction fuel with
  | zero =>
    intro snap r acc h
    unfold expireGo
    rw [if_pos h]
  | succ n ih =>
    intro snap r acc h
    unfold expireGo
    rw [if_pos h]
    exact ih snap _ _ h

/-- The chain walk either finishes the request (terminal responder invoked
exactly once, state Performed, responder/body cleared, timer stopped, chain
empty) or stops early with no terminal call, a state that is no longer
Prepared, and the hijacking node still chained. -/
theorem chainLoop_contract : ∀ (l : List MNode) (res : Response) (r : Request),
    r.chain = l →
    ((chainLoop l res r).1.state = RsPerformed ∧
     (chainLoop l res r).1.hasResponder = false ∧
     (chainLoop l res r).1.body = none ∧
     (chainLoop l res r).1.timerOn = false ∧
     (chainLoop l res r).1.chain = [] ∧
     (chainLoop l res r).2.length = 1) ∨
    ((chainLoop l res r).2 = [] ∧
     (chainLoop l res r).1.state ≠ RsPrepared ∧
     (chainLoop l res r).1.chain ≠ []) := by
  intro l
  induction l with
  | nil =>
    intro res r hl
    left
    exact ⟨rfl, rfl, rfl, rfl, hl, rfl⟩
  | cons n rest ih =>
    intro res r hl
    simp only [chainLoop]
    split
    · exact ih _ _ rfl
    · next hp =>
        right
        refine ⟨rfl, hp, ?_⟩
        show r.chain ≠ []
        rw [hl]
        exact List.cons_ne_nil n rest

/-- The source's Cancel returns false on every path. -/
theorem requestCancel_false (r : Request) : (requestCancel r).2 = false := by
  unfold requestCancel
  split <;> rfl

/-! ## Claim theorems -/

/-- C1: once `chainResponse` has run (state `RsPrepared` or `RsPerformed`),
no later `Response`, `Cancel` or `Expire` call invokes the terminal
Responder again: each returns the request unchanged with an empty delivery
list (`Expire` because its loop guard sees a Performing bit and exits at
once, for any fuel). -/
theorem c1_single_terminal (r : Request) (res : Response) (fuel : Nat)
    (h : r.state = RsPrepared ∨ r.state = RsPerformed) :
    requestResponse r res = (r, []) ∧
    requestCancel r = ((r, []), false) ∧
    requestExpire fuel r = some (r, []) := by
  rcases h with h | h <;>
    refine ⟨?_, ?_, ?_⟩ <;>
    first
      | (unfold requestResponse; rw [h, if_neg (by decide)])
      | (unfold requestCancel; rw [h, if_neg (by decide)])
      | (unfold requestExpire; rw [h]; exact expireGo_done fuel _ r [] (by decide))

/-- Witness for C1 at a concrete performed request. -/
theorem c1_single_terminal_witness :
    (reqPerfW.state = RsPrepared ∨ reqPerfW.state = RsPerformed) ∧
    (requestResponse reqPerfW resW = (reqPerfW, []) ∧
     requestCancel reqPerfW = ((reqPerfW, []), false) ∧
     requestExpire 3 reqPerfW = some (reqPerfW, [])) :=
  ⟨Or.inr rfl, c1_single_terminal reqPerfW resW 3 (Or.inr rfl)⟩

/-- C2 (code bug evidence): for a freshly created request — whose state has
no Performing bit — `Expire()` never returns: the loop re-tests the stale
snapshot loaded before the loop, so no amount of fuel completes it; the
claim says Expire terminates after entering `chainResponse` exactly once. -/
theorem c2_expire_diverges (fuel : Nat) :
    requestExpire fuel reqNewC2 = none ∧
    reqNewC2.state &&& RsPerforming = 0 :=
  ⟨expireGo_stuck fuel reqNewC2.state reqNewC2 [] (by decide), by decide⟩

/-- C3 (code bug evidence): `runOne` returns false and changes nothing for
EVERY service state, because the guard `next == serv.list.next` compares the
freshly read head pointer with itself; in particular it does so on a queue
holding one non-performed node with a pending request, where the claim
requires a dispatch and a true result. -/
theorem c3_run_one_always_false :
    (∀ serv : ParallelService, runOne serv = (serv, none, false)) ∧
    servPendC3.waiting.length = 1 ∧
    headPerformed servPendC3 = false ∧
    servPendC3.waiting.map (fun n => n.req.state) = [RsPending] ∧
    runOne servPendC3 = (servPendC3, none, false) := by
  have hall : ∀ serv : ParallelService, runOne serv = (serv, none, false) := by
    intro serv
    unfold runOne
    rw [if_pos (Or.inl rfl)]
  exact ⟨hall, rfl, rfl, rfl, hall servPendC3⟩

/-- C4 (code bug evidence): cancelling an in-flight request delivers a
terminal response whose code is `RcTimeout`, not `RcCanceled` as the claim
(and the spec's error taxonomy) requires. -/
theorem c4_cancel_sends_timeout :
    (requestCancel reqInFlyC4).1.2 =
      [{ msg := 7, id := 3, code := RcTimeout, body := none }] ∧
    RcTimeout ≠ RcCanceled :=
  ⟨rfl, by decide⟩

/-- C5: `chainResponse` first sets the state to Prepared and walks the
chain; either the walk completes — the terminal Responder is invoked exactly
once, the state becomes Performed, responder and body are cleared, the timer
is stopped and the chain is empty — or some callback left the state other
than Prepared, in which case no terminal call is made and the remaining
nodes (the hijacker at their head) stay chained. -/
theorem c5_chain_response_contract (r : Request) (res : Response) :
    ((chainResponse r res).1.state = RsPerformed ∧
     (chainResponse r res).1.hasResponder = false ∧
     (chainResponse r res).1.body = none ∧
     (chainResponse r res).1.timerOn = false ∧
     (chainResponse r res).1.chain = [] ∧
     (chainResponse r res).2.length = 1) ∨
    ((chainResponse r res).2 = [] ∧
     (chainResponse r res).1.state ≠ RsPrepared ∧
     (chainResponse r res).1.chain ≠ []) :=
  chainLoop_contract r.chain res { r with state := RsPrepared } rfl

/-- C6 counterexample: `Restartable()` is TRUE for `RcSendTimeout`, which
the claim lists among the fatal codes that must not be restartable. -/
theorem c6_counterexample :
    Response.restartable
      { msg := 0, id := 0, code := RcSendTimeout, body := none } = true := by
  decide

/-- C6 amended: on the declared constants, `Restartable()` is false exactly
for the codes at or above `RcFatalError` — `RcShutdown`, `RcProtocolError`,
`RcFailed` — while `RcSendTimeout`, `RcRecvTimeout` and `RcIOError` sit in
the restartable band `[RcRestartable, RcFatalError)` and are restartable. -/
theorem c6_amended_restartable :
    Response.restartable
      { msg := 0, id := 0, code := RcShutdown, body := none } = false ∧
    Response.restartable
      { msg := 0, id := 0, code := RcProtocolError, body := none } = false ∧
    Response.restartable
      { msg := 0, id := 0, code := RcFailed, body := none } = false ∧
    Response.restartable
      { msg := 0, id := 0, code := RcSendTimeout, body := none } = true ∧
    Response.restartable
      { msg := 0, id := 0, code := RcRecvTimeout, body := none } = true ∧
    Response.restartable
      { msg := 0, id := 0, code := RcIOError, body := none } = true ∧
    RcRestartable ≤ RcSendTimeout ∧ RcSendTimeout < RcFatalError ∧
    RcRestartable ≤ RcRecvTimeout ∧ RcRecvTimeout < RcFatalError := by
  decide

/-- C7 (code bug evidence): on a group of two requests with one early
response carrying id 1, `Each()` faults: the pre-drain executes
`w.requests[resp.Id] = nil`, indexing the one-element block slice with the
request id 1. -/
theorem c7_each_panics :
    wgEach wEarlyC7 = .error (GoPanic.indexOutOfRange 1 1) ∧
    wEarlyC7.reqn = 2 ∧
    wEarlyC7.responses.length = 1 :=
  ⟨rfl, rfl, rfl⟩

/-- C9: `AddCanceler` on a terminal context (retCode `RcCanceled` or
`RcTimeout`) leaves the inline slots, the overflow map and the slot counter
unchanged and calls the candidate's `Cancel()` exactly once. -/
theorem c9_add_canceler_terminal (c : Context) (cn : Nat)
    (h : c.retCode = RcCanceled ∨ c.retCode = RcTimeout) :
    (addCanceler c cn).1.cancels = c.cancels ∧
    (addCanceler c cn).1.cancelsm = c.cancelsm ∧
    (addCanceler c cn).1.cancelsn = c.cancelsn ∧
    (addCanceler c cn).2 = [cn] := by
  unfold addCanceler
  rcases h with h | h <;> rw [h, if_neg (by decide)] <;> exact ⟨rfl, rfl, rfl, rfl⟩

/-- Witness for C9 at a concrete cancelled context. -/
theorem c9_add_canceler_terminal_witness :
    (cxTermC9.retCode = RcCanceled ∨ cxTermC9.retCode = RcTimeout) ∧
    ((addCanceler cxTermC9 5).1.cancels = cxTermC9.cancels ∧
     (addCanceler cxTermC9 5).1.cancelsm = cxTermC9.cancelsm ∧
     (addCanceler cxTermC9 5).1.cancelsn = cxTermC9.cancelsn ∧
     (addCanceler cxTermC9 5).2 = [5]) :=
  ⟨Or.inl rfl, c9_add_canceler_terminal cxTermC9 5 (Or.inl rfl)⟩

/-- C10: sending to a shut-down ParallelService (`appended` nil'ed) attempts
`Respond(RcShutdown, nil)`, but `Request.Response` only delivers in state
InFly, so for a New or Pending request nothing is delivered and the request
is returned unchanged — it never receives a terminal response from this
path. -/
theorem c10_shutdown_response_dropped (serv : ParallelService) (r : Request)
    (h1 : serv.appendedNil = true)
    (h2 : r.state = RsNew ∨ r.state = RsPending) :
    sendWrapped serv r = (serv, r, []) := by
  have hr : requestRespond r RcShutdown none = (r, []) := by
    unfold requestRespond requestResponse
    rcases h2 with h | h <;> rw [h, if_neg (by decide)]
  simp [sendWrapped, h1, hr]

/-- C8 (code bug evidence): on a group with one in-flight member, no
consumption mode chosen (`ch` nil) and `c = 0 ≠ reqn = 1`, `Cancel()` never
returns: holding `w.m` it synchronously runs the member's terminal delivery
into the group's own Respond, whose `ch == nil` path re-acquires the
non-reentrant `w.m` — so `c` never grows and no later member is visited.
Independently, the source's `Request.Cancel` returns false on every input,
so the loop's `if req.Cancel() { w.incLocked() }` counting branch can never
fire. -/
theorem c8_cancel_deadlocks :
    wgCancel wMidC8 = LockedOutcome.blocked ∧
    wMidC8.c = 0 ∧ wMidC8.reqn = 1 ∧ wMidC8.ch = none ∧
    (getSlot wMidC8.requests 0 0).map Request.state = some RsInFly ∧
    ∀ r : Request, (requestCancel r).2 = false :=
  ⟨rfl, rfl, rfl, rfl, rfl, requestCancel_false⟩

/-- Witness for C10 at a concrete shut-down service and fresh request. -/
theorem c10_shutdown_response_dropped_witness :
    servShutC10.appendedNil = true ∧
    (reqNewC10.state = RsNew ∨ reqNewC10.state = RsPending) ∧
    sendWrapped servShutC10 reqNewC10 = (servShutC10, reqNewC10, []) :=
  ⟨rfl, Or.inl rfl,
    c10_shutdown_response_dropped servShutC10 reqNewC10 rfl (Or.inl rfl)⟩

end Iproto
